import Mathlib

/-!
Shallow embedding of the per-tenant economy simulation (config.py,
economic_engine.py, database.py, bot.py, bot_commands.py, bot_commands2.py).
Monetary amounts, rates and probabilities are modelled as rationals; Python
operations that can raise (KeyError lookups, ZeroDivisionError) return
Option; the global RNG draws are passed as explicit parameters.
-/

namespace Economics

/-- The five economic tiers (config.EconomicClass). -/
inductive EconomicClassT
| lower
| middle
| upper
| elite
| oligarch
deriving DecidableEq, Repr

open EconomicClassT

/-- config.CLASS_THRESHOLDS, in dict insertion order; `none` as the upper
bound stands for float('inf'). -/
def CLASS_THRESHOLDS : List (EconomicClassT × ℚ × Option ℚ) :=
  [(lower, 0, some 10000),
   (middle, 10001, some 50000),
   (upper, 50001, some 200000),
   (elite, 200001, some 1000000),
   (oligarch, 1000001, none)]

/-- `min_wealth <= wealth <= max_wealth` for one configured band. -/
def bandContains (lo : ℚ) (hi : Option ℚ) (w : ℚ) : Bool :=
  decide (lo ≤ w) && hi.all (fun h => decide (w ≤ h))

/-- Whether wealth `w` lies inside the configured band of class `c`. -/
def inBand (c : EconomicClassT) (w : ℚ) : Bool :=
  match CLASS_THRESHOLDS.lookup c with
  | some (lo, hi) => bandContains lo hi w
  | none => false

/-- The loop body of economic_engine.calculate_economic_class: first band
that contains the wealth wins; falling through returns LOWER. -/
def classifyAux (w : ℚ) : List (EconomicClassT × ℚ × Option ℚ) → EconomicClassT
  | [] => lower
  | (c, lo, hi) :: rest =>
    if bandContains lo hi w then c else classifyAux w rest

/-- economic_engine.calculate_economic_class. -/
def calculate_economic_class (w : ℚ) : EconomicClassT :=
  classifyAux w CLASS_THRESHOLDS

/-- config.CLASS_TAX_RATES. -/
def CLASS_TAX_RATES : EconomicClassT → ℚ
  | lower => 0.05
  | middle => 0.15
  | upper => 0.28
  | elite => 0.37
  | oligarch => 0.45

/-- economic_engine.calculate_tax. -/
def calculate_tax (income : ℚ) (c : EconomicClassT) (server_tax_modifier : ℚ) : ℚ :=
  income * (CLASS_TAX_RATES c * server_tax_modifier)

/-- One entry of config.JOBS. -/
structure JobData where
  base_salary : ℚ
  skill_required : ℕ
  demand_elasticity : ℚ
  automation_risk : ℚ
deriving DecidableEq, Repr

/-- config.JOBS. -/
def JOBS : List (String × JobData) :=
  [("unemployed", ⟨0, 0, 0, 0⟩),
   ("beggar", ⟨200, 0, 0.1, 0.05⟩),
   ("street_cleaner", ⟨500, 0, 0.2, 0.6⟩),
   ("dishwasher", ⟨600, 0, 0.3, 0.7⟩),
   ("laborer", ⟨800, 0, 0.2, 0.7⟩),
   ("garbage_collector", ⟨900, 0, 0.2, 0.5⟩),
   ("janitor", ⟨1200, 1, 0.3, 0.6⟩),
   ("delivery_driver", ⟨1400, 1, 0.5, 0.8⟩),
   ("security_guard", ⟨1500, 1, 0.3, 0.4⟩),
   ("cashier", ⟨1600, 1, 0.4, 0.7⟩),
   ("waiter", ⟨1700, 2, 0.5, 0.5⟩),
   ("warehouse_worker", ⟨2000, 2, 0.5, 0.5⟩),
   ("factory_worker", ⟨2200, 2, 0.4, 0.8⟩),
   ("receptionist", ⟨2400, 2, 0.4, 0.6⟩),
   ("sales_associate", ⟨2600, 3, 0.6, 0.5⟩),
   ("barista", ⟨2300, 2, 0.5, 0.6⟩),
   ("cook", ⟨2800, 3, 0.4, 0.4⟩),
   ("mechanic", ⟨3200, 4, 0.5, 0.3⟩),
   ("electrician", ⟨3400, 4, 0.5, 0.3⟩),
   ("plumber", ⟨3300, 4, 0.5, 0.2⟩),
   ("technician", ⟨3500, 4, 0.6, 0.3⟩),
   ("paramedic", ⟨3600, 5, 0.3, 0.2⟩),
   ("teacher", ⟨3800, 5, 0.3, 0.2⟩),
   ("police_officer", ⟨4000, 5, 0.3, 0.2⟩),
   ("firefighter", ⟨4100, 5, 0.3, 0.1⟩),
   ("nurse", ⟨4200, 5, 0.4, 0.2⟩),
   ("accountant", ⟨4500, 6, 0.6, 0.5⟩),
   ("software_developer", ⟨5000, 6, 0.8, 0.3⟩),
   ("data_analyst", ⟨4800, 6, 0.7, 0.4⟩),
   ("engineer", ⟨5500, 7, 0.7, 0.4⟩),
   ("architect", ⟨5600, 7, 0.6, 0.3⟩),
   ("manager", ⟨6000, 6, 0.5, 0.3⟩),
   ("marketing_manager", ⟨6200, 7, 0.6, 0.4⟩),
   ("pharmacist", ⟨6500, 8, 0.4, 0.3⟩),
   ("dentist", ⟨7000, 8, 0.4, 0.2⟩),
   ("lawyer", ⟨7500, 8, 0.5, 0.3⟩),
   ("doctor", ⟨8000, 9, 0.4, 0.1⟩),
   ("surgeon", ⟨9000, 10, 0.3, 0.1⟩),
   ("pilot", ⟨8500, 9, 0.5, 0.4⟩),
   ("investment_banker", ⟨10000, 9, 0.7, 0.3⟩),
   ("executive", ⟨12000, 9, 0.8, 0.2⟩),
   ("ceo", ⟨15000, 10, 0.9, 0.1⟩),
   ("entrepreneur", ⟨18000, 8, 0.9, 0.1⟩)]

/-- Per-phase multiplicative modifiers (config.PHASE_MODIFIERS entry). -/
structure PhaseModifier where
  gdp_growth : ℚ
  unemployment : ℚ
  inflation : ℚ
deriving DecidableEq, Repr

/-- config.PHASE_MODIFIERS. -/
def PHASE_MODIFIERS : List (String × PhaseModifier) :=
  [("expansion", ⟨1.15, 0.85, 1.10⟩),
   ("peak", ⟨1.05, 0.90, 1.15⟩),
   ("recession", ⟨0.85, 1.30, 0.95⟩),
   ("trough", ⟨0.80, 1.50, 0.90⟩),
   ("recovery", ⟨1.10, 1.10, 1.02⟩)]

/-- config.CYCLE_PHASES. -/
def CYCLE_PHASES : List String :=
  ["expansion", "peak", "recession", "trough", "recovery"]

/-- config.CYCLE_DURATION_DAYS. -/
def CYCLE_DURATION_DAYS : ℚ := 28

/-- The slice of the tenant snapshot consumed by calculate_salary:
gdp, min_wage and the per-job employed counts (job_market). -/
structure ServerData where
  gdp : ℚ
  min_wage : ℚ
  job_market : List (String × ℕ)
deriving DecidableEq, Repr

/-- `server_data["job_market"].get(job, {"employed": 1, ...})["employed"]`. -/
def employedCount (s : ServerData) (job : String) : ℕ :=
  match s.job_market.lookup job with
  | some n => n
  | none => 1

/-- economic_engine.calculate_salary.  `none` models the KeyError raised
when job or phase is missing from the config tables. -/
def calculate_salary (job : String) (server : ServerData) (user_skill : ℚ)
    (economic_phase : String) : Option ℚ :=
  if job = "unemployed" then some 0
  else
    match JOBS.lookup job, PHASE_MODIFIERS.lookup economic_phase with
    | some job_data, some pm =>
      let base_salary := job_data.base_salary
      let phase_modifier := pm.gdp_growth
      let employed_count := employedCount server job
      let demand_elasticity := job_data.demand_elasticity
      let supply_modifier := min (1 + demand_elasticity * (1 / (max employed_count 1 : ℚ))) 2
      let skill_required : ℚ := (max job_data.skill_required 1 : ℕ)
      let skill_modifier := min (1 + (user_skill / skill_required) * 0.5) 1.5
      let gdp_modifier := min (1 + (server.gdp / 1000000) * 0.1) 2
      let calculated_salary := base_salary * phase_modifier * supply_modifier *
        skill_modifier * gdp_modifier
      some (max calculated_salary server.min_wage)
    | _, _ => none

/-- One entry of config.BASE_ITEMS. -/
structure ItemData where
  base_price : ℚ
  elasticity : ℚ
  necessity : ℚ
deriving DecidableEq, Repr

/-- config.BASE_ITEMS. -/
def BASE_ITEMS : List (String × ItemData) :=
  [("bread", ⟨5, 0.3, 0.9⟩),
   ("water", ⟨3, 0.2, 1.0⟩),
   ("medicine", ⟨50, 0.1, 0.8⟩),
   ("phone", ⟨500, 0.7, 0.4⟩),
   ("laptop", ⟨1200, 0.8, 0.3⟩),
   ("car", ⟨25000, 0.9, 0.5⟩),
   ("house", ⟨200000, 1.2, 0.9⟩),
   ("luxury_watch", ⟨5000, 1.5, 0.0⟩),
   ("yacht", ⟨1000000, 2.0, 0.0⟩)]

/-- economic_engine.calculate_item_price.  Unknown items do not fail: the
source falls back to `{"elasticity": 0.5, "necessity": 0.5}` via dict.get. -/
def calculate_item_price (item : String) (base_price : ℚ) (inflation_rate : ℚ)
    (demand_factor : ℚ) : ℚ :=
  let item_data :=
    match BASE_ITEMS.lookup item with
    | some d => (d.elasticity, d.necessity)
    | none => (0.5, 0.5)
  let inflation_adjusted := base_price * (1 + inflation_rate)
  let demand_adjustment := 1 + (demand_factor - 1) * item_data.1
  let price_floor := base_price * item_data.2 * 0.5
  max (inflation_adjusted * demand_adjustment) price_floor

/-- Index computed by economic_engine.update_economic_cycle:
`int(days_elapsed / phase_duration) % len(CYCLE_PHASES)`. -/
def cyclePhaseIndex (days_elapsed : ℕ) : ℕ :=
  (⌊(days_elapsed : ℚ) / (CYCLE_DURATION_DAYS / (CYCLE_PHASES.length : ℚ))⌋).toNat %
    CYCLE_PHASES.length

/-- economic_engine.update_economic_cycle, with the `random.random() < 0.05`
draw exposed as the boolean `shock`.  Returns the new cycle phase. -/
def update_economic_cycle (days_elapsed : ℕ) (shock : Bool) : String :=
  let new_phase := CYCLE_PHASES.getD (cyclePhaseIndex days_elapsed) "expansion"
  if shock = true ∧ new_phase = "expansion" then "recession" else new_phase

/-- The cycle-relevant slice of the tenant snapshot. -/
structure ServerCycleState where
  cycle_start : ℕ
  cycle_phase : String
deriving DecidableEq, Repr

/-- bot.update_server_economy writes back cycle_update["cycle_phase"]; its
$set document never touches cycle_start. -/
def runCycleUpdate (s : ServerCycleState) (now : ℕ) (shock : Bool) : ServerCycleState :=
  { s with cycle_phase := update_economic_cycle (now - s.cycle_start) shock }

/-- One entry of config.CRIME_TYPES. -/
structure CrimeData where
  base_success : ℚ
  min_steal : ℚ
  max_steal : ℚ
  jail_time_hours : ℕ
  skill_required : ℕ
deriving DecidableEq, Repr

/-- config.CRIME_TYPES. -/
def CRIME_TYPES : List (String × CrimeData) :=
  [("pickpocket", ⟨0.4, 100, 500, 2, 0⟩),
   ("robbery", ⟨0.25, 500, 3000, 6, 3⟩),
   ("heist", ⟨0.15, 5000, 20000, 24, 7⟩),
   ("embezzlement", ⟨0.20, 10000, 50000, 48, 8⟩),
   ("tax_evasion", ⟨0.35, 5000, 30000, 72, 6⟩)]

/-- economic_engine.calculate_crime_success_rate. -/
def calculate_crime_success_rate (crime_type : String) (user_skill : ℚ)
    (inequality : ℚ) (police_strength : ℚ) (unemployment_rate : ℚ) : Option ℚ :=
  match CRIME_TYPES.lookup crime_type with
  | none => none
  | some crime_data =>
    let base_success := crime_data.base_success
    let skill_bonus := (user_skill - (crime_data.skill_required : ℚ)) * 0.05
    let inequality_bonus := max 0 ((inequality - 0.45) * 0.5)
    let unemployment_bonus := unemployment_rate * 0.3
    let police_penalty := police_strength * 0.2
    let success_rate := base_success + skill_bonus + inequality_bonus +
      unemployment_bonus - police_penalty
    some (max 0.05 (min success_rate 0.95))

/-- One entry of config.INVESTMENT_TYPES. -/
structure InvestmentData where
  min_amount : ℚ
  annual_return : ℚ
  risk : ℚ
  liquidity : ℚ
deriving DecidableEq, Repr

/-- config.INVESTMENT_TYPES. -/
def INVESTMENT_TYPES : List (String × InvestmentData) :=
  [("savings_account", ⟨100, 0.02, 0.01, 1.0⟩),
   ("bonds", ⟨1000, 0.04, 0.05, 0.8⟩),
   ("stocks", ⟨500, 0.08, 0.20, 0.9⟩),
   ("real_estate", ⟨50000, 0.06, 0.10, 0.3⟩),
   ("venture_capital", ⟨100000, 0.15, 0.40, 0.2⟩),
   ("cryptocurrency", ⟨100, 0.20, 0.60, 0.95⟩)]

/-- economic_engine.calculate_investment_return, with the Gaussian draw
`random.gauss(0, volatility)` exposed as the parameter `random_shock`. -/
def calculate_investment_return (investment_type : String) (gdp_growth : ℚ)
    (holding_period_days : ℕ) (random_shock : ℚ) : Option ℚ :=
  match INVESTMENT_TYPES.lookup investment_type with
  | none => none
  | some investment_data =>
    let time_factor : ℚ := (holding_period_days : ℚ) / 365
    let expected_return := investment_data.annual_return * time_factor
    let market_modifier := (gdp_growth - 0.9) * 2
    let total_return := expected_return + market_modifier + random_shock
    if investment_type = "cryptocurrency" then
      some (max (-0.90) (min total_return 5.0))
    else if investment_type = "venture_capital" then
      some (max (-0.80) (min total_return 3.0))
    else
      some (max (-0.50) (min total_return 1.0))

/-- The investment record written by database.create_investment: the current
value starts equal to the principal. -/
structure Investment where
  principal : ℚ
  current_value : ℚ
deriving DecidableEq, Repr

/-- database.create_investment. -/
def create_investment (amount : ℚ) : Investment :=
  { principal := amount, current_value := amount }

/-- bot.update_investment_value: no-op when zero whole days have passed,
otherwise current_value *= (1 + return_rate). -/
def update_investment_value (current_value : ℚ) (investment_type : String)
    (gdp_growth : ℚ) (days_held : ℕ) (random_shock : ℚ) : Option ℚ :=
  if days_held = 0 then some current_value
  else
    (calculate_investment_return investment_type gdp_growth days_held random_shock).map
      (fun r => current_value * (1 + r))

/-- The balance-carrying slice of a user document (database.get_user). -/
structure UserState where
  balance : ℚ
  bank : ℚ
  reputation : ℤ
deriving DecidableEq, Repr

/-- bot_commands.deposit: amount must be positive and covered by cash,
otherwise the command replies with an error and mutates nothing. -/
def deposit (amount : ℚ) (u : UserState) : Option UserState :=
  if amount ≤ 0 then none
  else if u.balance < amount then none
  else some { u with balance := u.balance - amount, bank := u.bank + amount }

/-- bot_commands.withdraw. -/
def withdraw (amount : ℚ) (u : UserState) : Option UserState :=
  if amount ≤ 0 then none
  else if u.bank < amount then none
  else some { u with bank := u.bank - amount, balance := u.balance + amount }

/-- bot_commands.transfer: 0.5 percent fee, sender debited the gross
amount, receiver credited the net amount. -/
def transfer (amount : ℚ) (sender receiver : UserState) :
    Option (UserState × UserState) :=
  if amount ≤ 0 then none
  else if sender.balance < amount then none
  else
    let fee := amount * 0.005
    let net_amount := amount - fee
    some ({ sender with balance := sender.balance - amount },
          { receiver with balance := receiver.balance + net_amount })

/-- bot_commands2.crime, success branch: cash grows by the stolen amount. -/
def crime_success (stolen_amount : ℚ) (u : UserState) : UserState :=
  { u with balance := u.balance + stolen_amount, reputation := u.reputation - 5 }

/-- bot_commands2.crime, failure branch: `fine = min(fine, user["balance"])`
is clamped to the cash balance before being debited. -/
def crime_fail (fine_raw : ℚ) (u : UserState) : UserState :=
  let fine := min fine_raw u.balance
  { u with balance := u.balance - fine, reputation := u.reputation - 10 }

/-- bot.work: gross earnings are salary times productivity, tax is
calculate_tax of the gross, and the net is credited to cash. -/
def work_op (salary productivity : ℚ) (c : EconomicClassT) (tax_modifier : ℚ)
    (u : UserState) : UserState :=
  let earnings := salary * productivity
  let tax := calculate_tax earnings c tax_modifier
  { u with balance := u.balance + (earnings - tax) }

/-- The loan record written by database.create_loan and mutated by
bot_commands.repay and bot.handle_loan_default. -/
structure Loan where
  remaining : ℚ
  defaulted : Bool
deriving DecidableEq, Repr

/-- The repayment loop of bot_commands.repay over the due-date-sorted
active loans: stops once the budget is exhausted (`remaining_payment <= 0`),
else pays `min(remaining_payment, loan["remaining"])` into the head loan.
Returns the updated loans and the unspent part of the budget. -/
def repayLoans (remaining_payment : ℚ) : List Loan → List Loan × ℚ
  | [] => ([], remaining_payment)
  | l :: ls =>
    if remaining_payment ≤ 0 then (l :: ls, remaining_payment)
    else
      let payment := min remaining_payment l.remaining
      let l' := { l with remaining := l.remaining - payment }
      let rest := repayLoans (remaining_payment - payment) ls
      (l' :: rest.1, rest.2)

/-- bot_commands.repay as a whole: rejects when there is no active loan or
when the amount exceeds the cash balance (the only validations performed),
then runs the repayment loop and debits the full amount from cash. -/
def repayCommand (amount : ℚ) (balance : ℚ) (loans : List Loan) :
    Option (ℚ × List Loan) :=
  if loans = [] then none
  else if balance < amount then none
  else some (balance - amount, (repayLoans amount loans).1)

/-- bot.handle_loan_default: seizes `min(cash + bank, remaining)`, leaves
the rest of the assets as cash, empties the bank, marks the loan defaulted
with its remaining floored at 0. -/
def handle_loan_default (u : UserState) (l : Loan) : UserState × Loan :=
  let total_assets := u.balance + u.bank
  let seized := min total_assets l.remaining
  ({ u with balance := total_assets - seized, bank := 0,
            reputation := u.reputation - 50 },
   { l with defaulted := true, remaining := max 0 (l.remaining - seized) })

/-- Ascending insertion, used to model Python's `sorted`. -/
def insertSorted (x : ℚ) : List ℚ → List ℚ
  | [] => [x]
  | y :: ys => if x ≤ y then x :: y :: ys else y :: insertSorted x ys

/-- Python's `sorted(...)` on a list of rationals. -/
def sortAsc (l : List ℚ) : List ℚ := l.foldr insertSorted []

/-- `sum((i + 1) * w for i, w in enumerate(wealth))` starting at index i. -/
def giniCumsum : ℕ → List ℚ → ℚ
  | _, [] => 0
  | i, w :: ws => ((i : ℚ) + 1) * w + giniCumsum (i + 1) ws

/-- database.calculate_gini_coefficient on the per-user wealth list.
Returns `none` exactly where Python raises ZeroDivisionError, i.e. when
`n * sum(wealth) == 0` with at least two users. -/
def calculate_gini_coefficient (raw : List ℚ) : Option ℚ :=
  if raw.length < 2 then some 0
  else
    let wealth := sortAsc raw
    let n : ℚ := (wealth.length : ℚ)
    let cumsum := giniCumsum 0 wealth
    let s := wealth.sum
    if n * s = 0 then none
    else some ((2 * cumsum) / (n * s) - (n + 1) / n)

/-- Whether a tenant update ran without raising. -/
def exceptOk {ε : Type} (e : Except ε Unit) : Bool :=
  match e with
  | Except.ok _ => true
  | Except.error _ => false

/-- bot.economic_update_loop: iterates the tenants with a single
try/except around the whole `async for`; an exception thrown while
updating one tenant propagates out of the loop (skipping every later
tenant) and is caught and logged at the batch level.  Returns the list of
tenants whose update completed. -/
def economic_update_loop (update : ℕ → Except String Unit) :
    List ℕ → List ℕ
  | [] => []
  | t :: ts =>
    match update t with
    | Except.ok _ => t :: economic_update_loop update ts
    | Except.error _ => []

/-- A tenant-update function that fails on tenant 1 and succeeds on every
other tenant. -/
def failingOnOne (t : ℕ) : Except String Unit :=
  if t = 1 then Except.error "tick failed" else Except.ok ()



theorem bandContains_iff (lo : ℚ) (hi : Option ℚ) (w : ℚ) :
    bandContains lo hi w = true ↔ lo ≤ w ∧ ∀ h ∈ hi, w ≤ h := by
  cases hi <;> simp [bandContains, Option.all]

theorem inBand_lower (w : ℚ) : inBand EconomicClassT.lower w = true ↔ 0 ≤ w ∧ w ≤ 10000 := by
  have h : inBand EconomicClassT.lower w = bandContains 0 (some 10000) w := by
    with_unfolding_all rfl
  rw [h, bandContains_iff]; simp

theorem inBand_middle (w : ℚ) : inBand EconomicClassT.middle w = true ↔ 10001 ≤ w ∧ w ≤ 50000 := by
  have h : inBand EconomicClassT.middle w = bandContains 10001 (some 50000) w := by
    with_unfolding_all rfl
  rw [h, bandContains_iff]; simp

theorem inBand_upper (w : ℚ) : inBand EconomicClassT.upper w = true ↔ 50001 ≤ w ∧ w ≤ 200000 := by
  have h : inBand EconomicClassT.upper w = bandContains 50001 (some 200000) w := by
    with_unfolding_all rfl
  rw [h, bandContains_iff]; simp

theorem inBand_elite (w : ℚ) : inBand EconomicClassT.elite w = true ↔ 200001 ≤ w ∧ w ≤ 1000000 := by
  have h : inBand EconomicClassT.elite w = bandContains 200001 (some 1000000) w := by
    with_unfolding_all rfl
  rw [h, bandContains_iff]; simp

theorem inBand_oligarch (w : ℚ) : inBand EconomicClassT.oligarch w = true ↔ 1000001 ≤ w := by
  have h : inBand EconomicClassT.oligarch w = bandContains 1000001 none w := by
    with_unfolding_all rfl
  rw [h, bandContains_iff]; simp

theorem classifyAux_cons (w : ℚ) (c : EconomicClassT) (lo : ℚ) (hi : Option ℚ)
    (rest : List (EconomicClassT × ℚ × Option ℚ)) :
    classifyAux w ((c, lo, hi) :: rest) =
      if bandContains lo hi w then c else classifyAux w rest := rfl

theorem classify_of_inBand (w : ℚ) (c : EconomicClassT) (h : inBand c w = true) :
    calculate_economic_class w = c := by
  cases c
  case lower =>
    rw [inBand_lower] at h
    simp only [calculate_economic_class, CLASS_THRESHOLDS, classifyAux_cons]
    rw [if_pos (by rw [bandContains_iff]; simpa using h)]
  case middle =>
    rw [inBand_middle] at h
    simp only [calculate_economic_class, CLASS_THRESHOLDS, classifyAux_cons]
    rw [if_neg (by rw [bandContains_iff]; simp; intro h0; linarith [h.1]),
        if_pos (by rw [bandContains_iff]; simpa using h)]
  case upper =>
    rw [inBand_upper] at h
    simp only [calculate_economic_class, CLASS_THRESHOLDS, classifyAux_cons]
    rw [if_neg (by rw [bandContains_iff]; simp; intro h0; linarith [h.1]),
        if_neg (by rw [bandContains_iff]; simp; intro h0; linarith [h.1]),
        if_pos (by rw [bandContains_iff]; simpa using h)]
  case elite =>
    rw [inBand_elite] at h
    simp only [calculate_economic_class, CLASS_THRESHOLDS, classifyAux_cons]
    rw [if_neg (by rw [bandContains_iff]; simp; intro h0; linarith [h.1]),
        if_neg (by rw [bandContains_iff]; simp; intro h0; linarith [h.1]),
        if_neg (by rw [bandContains_iff]; simp; intro h0; linarith [h.1]),
        if_pos (by rw [bandContains_iff]; simpa using h)]
  case oligarch =>
    rw [inBand_oligarch] at h
    simp only [calculate_economic_class, CLASS_THRESHOLDS, classifyAux_cons]
    rw [if_neg (by rw [bandContains_iff]; simp; intro h0; linarith),
        if_neg (by rw [bandContains_iff]; simp; intro h0; linarith),
        if_neg (by rw [bandContains_iff]; simp; intro h0; linarith),
        if_neg (by rw [bandContains_iff]; simp; intro h0; linarith),
        if_pos (by rw [bandContains_iff]; simpa using h)]

theorem inBand_unique (w : ℚ) (c c' : EconomicClassT)
    (h : inBand c w = true) (h' : inBand c' w = true) : c = c' := by
  cases c <;> cases c' <;>
    first
    | rfl
    | (exfalso
       first
       | (rw [inBand_lower] at h; rw [inBand_middle] at h'; linarith [h.1, h.2, h'.1])
       | (rw [inBand_lower] at h; rw [inBand_upper] at h'; linarith [h.1, h.2, h'.1])
       | (rw [inBand_lower] at h; rw [inBand_elite] at h'; linarith [h.1, h.2, h'.1])
       | (rw [inBand_lower] at h; rw [inBand_oligarch] at h'; linarith [h.1, h.2, h'])
       | (rw [inBand_middle] at h; rw [inBand_lower] at h'; linarith [h.1, h'.1, h'.2])
       | (rw [inBand_middle] at h; rw [inBand_upper] at h'; linarith [h.1, h.2, h'.1])
       | (rw [inBand_middle] at h; rw [inBand_elite] at h'; linarith [h.1, h.2, h'.1])
       | (rw [inBand_middle] at h; rw [inBand_oligarch] at h'; linarith [h.1, h.2, h'])
       | (rw [inBand_upper] at h; rw [inBand_lower] at h'; linarith [h.1, h'.1, h'.2])
       | (rw [inBand_upper] at h; rw [inBand_middle] at h'; linarith [h.1, h'.1, h'.2])
       | (rw [inBand_upper] at h; rw [inBand_elite] at h'; linarith [h.1, h.2, h'.1])
       | (rw [inBand_upper] at h; rw [inBand_oligarch] at h'; linarith [h.1, h.2, h'])
       | (rw [inBand_elite] at h; rw [inBand_lower] at h'; linarith [h.1, h'.1, h'.2])
       | (rw [inBand_elite] at h; rw [inBand_middle] at h'; linarith [h.1, h'.1, h'.2])
       | (rw [inBand_elite] at h; rw [inBand_upper] at h'; linarith [h.1, h'.1, h'.2])
       | (rw [inBand_elite] at h; rw [inBand_oligarch] at h'; linarith [h.1, h.2, h'])
       | (rw [inBand_oligarch] at h; rw [inBand_lower] at h'; linarith [h, h'.1, h'.2])
       | (rw [inBand_oligarch] at h; rw [inBand_middle] at h'; linarith [h, h'.1, h'.2])
       | (rw [inBand_oligarch] at h; rw [inBand_upper] at h'; linarith [h, h'.1, h'.2])
       | (rw [inBand_oligarch] at h; rw [inBand_elite] at h'; linarith [h, h'.1, h'.2]))


theorem classify_gap (w : ℚ) (h1 : 10000 < w) (h2 : w < 10001) :
    (∀ c, inBand c w ≠ true) ∧ calculate_economic_class w = EconomicClassT.lower := by
  constructor
  · intro c
    cases c
    case lower => intro h; rw [inBand_lower] at h; linarith [h.2]
    case middle => intro h; rw [inBand_middle] at h; linarith [h.1]
    case upper => intro h; rw [inBand_upper] at h; linarith [h.1]
    case elite => intro h; rw [inBand_elite] at h; linarith [h.1]
    case oligarch => intro h; rw [inBand_oligarch] at h; linarith
  · simp only [calculate_economic_class, CLASS_THRESHOLDS, classifyAux_cons]
    rw [if_neg (by rw [bandContains_iff]; simp; intro h0; linarith),
        if_neg (by rw [bandContains_iff]; simp; intro h0; linarith),
        if_neg (by rw [bandContains_iff]; simp; intro h0; linarith),
        if_neg (by rw [bandContains_iff]; simp; intro h0; linarith),
        if_neg (by rw [bandContains_iff]; simp; linarith)]
    rfl

/-- C1 counterexample: the wealth 10000.5 is non-negative and lies strictly
between the adjacent configured boundaries 10000 and 10001, yet it is inside
none of the five configured bands, so the bands do not partition [0, ∞);
the classifier only returns LOWER for it through the loop's fall-through
default. -/
theorem class_bands_gap_cex :
    (0 : ℚ) ≤ 20001/2 ∧ (10000 : ℚ) < 20001/2 ∧ (20001 : ℚ)/2 < 10001 ∧
    inBand EconomicClassT.lower (20001/2) = false ∧
    inBand EconomicClassT.middle (20001/2) = false ∧
    inBand EconomicClassT.upper (20001/2) = false ∧
    inBand EconomicClassT.elite (20001/2) = false ∧
    inBand EconomicClassT.oligarch (20001/2) = false ∧
    calculate_economic_class (20001/2) = EconomicClassT.lower := by
  refine ⟨by norm_num, by norm_num, by norm_num, ?_, ?_, ?_, ?_, ?_, ?_⟩ <;>
    with_unfolding_all rfl

/-- C1 amended: the classifier is total and agrees with the unique band
containing the wealth whenever one exists, and bands never overlap; but the
configured bands leave gaps (such as 10000 < w < 10001) where no band
contains the wealth and the classifier falls through to LOWER. -/
theorem class_bands_amended :
    (∀ (w : ℚ) (c : EconomicClassT), inBand c w = true → calculate_economic_class w = c) ∧
    (∀ (w : ℚ) (c c' : EconomicClassT), inBand c w = true → inBand c' w = true → c = c') ∧
    (∀ w : ℚ, 10000 < w → w < 10001 →
      (∀ c, inBand c w ≠ true) ∧ calculate_economic_class w = EconomicClassT.lower) :=
  ⟨fun w c h => classify_of_inBand w c h,
   fun w c c' h h' => inBand_unique w c c' h h',
   fun w h1 h2 => classify_gap w h1 h2⟩

/-- C1 witness: the amended theorem evaluated at wealth 25000 (inside the
MIDDLE band) and at the gap wealth 10000.5. -/
theorem class_bands_amended_witness :
    calculate_economic_class 25000 = EconomicClassT.middle ∧
    EconomicClassT.middle = EconomicClassT.middle ∧
    ((∀ c, inBand c (20001/2 : ℚ) ≠ true) ∧
      calculate_economic_class (20001/2 : ℚ) = EconomicClassT.lower) :=
  ⟨class_bands_amended.1 25000 EconomicClassT.middle (by with_unfolding_all rfl),
   class_bands_amended.2.1 25000 EconomicClassT.middle EconomicClassT.middle
     (by with_unfolding_all rfl) (by with_unfolding_all rfl),
   class_bands_amended.2.2 (20001/2) (by norm_num) (by norm_num)⟩


/-- C2 amended: for every catalog job other than unemployed, the computed
wage is floored at the tenant minimum wage; the unemployed job returns
exactly 0 for every snapshot, skill and phase. -/
theorem salary_floor :
    (∀ (job : String) (server : ServerData) (skill : ℚ) (phase : String)
       (jd : JobData) (pm : PhaseModifier),
       job ≠ "unemployed" →
       JOBS.lookup job = some jd → PHASE_MODIFIERS.lookup phase = some pm →
       ∃ s, calculate_salary job server skill phase = some s ∧ server.min_wage ≤ s) ∧
    (∀ (server : ServerData) (skill : ℚ) (phase : String),
       calculate_salary "unemployed" server skill phase = some 0) := by
  constructor
  · intro job server skill phase jd pm hne hjob hpm
    rw [calculate_salary, if_neg hne, hjob, hpm]
    exact ⟨_, rfl, le_max_right _ _⟩
  · intro server skill phase
    with_unfolding_all rfl

/-- C2 counterexample: on a tenant with the default minimum wage 1500, the
unemployed job's wage is 0, which is below the minimum wage, so the wage is
not at least the minimum wage for every job in the catalog. -/
theorem salary_unemployed_cex :
    calculate_salary "unemployed" ⟨0, 1500, []⟩ 0 "expansion" = some 0 ∧
    ¬ ((1500 : ℚ) ≤ 0) :=
  ⟨by with_unfolding_all rfl, by norm_num⟩

/-- C2 witness: the amended theorem at the job beggar (skill 0, phase
expansion, minimum wage 1500) and the unemployed job. -/
theorem salary_floor_witness :
    ("beggar" : String) ≠ "unemployed" ∧
    (∃ s, calculate_salary "beggar" ⟨0, 1500, []⟩ 0 "expansion" = some s ∧ (1500 : ℚ) ≤ s) ∧
    calculate_salary "unemployed" ⟨0, 1500, []⟩ 3 "peak" = some 0 :=
  ⟨by decide,
   salary_floor.1 "beggar" ⟨0, 1500, []⟩ 0 "expansion" ⟨200, 0, 0.1, 0.05⟩ ⟨1.15, 0.85, 1.10⟩
     (by decide) (by with_unfolding_all rfl) (by with_unfolding_all rfl),
   salary_floor.2 ⟨0, 1500, []⟩ 3 "peak"⟩

theorem insertSorted_replicate (n : ℕ) (x : ℚ) :
    insertSorted x (List.replicate n x) = List.replicate (n + 1) x := by
  cases n with
  | zero => rfl
  | succ m => simp [insertSorted, List.replicate_succ]

theorem sortAsc_replicate (n : ℕ) (x : ℚ) :
    sortAsc (List.replicate n x) = List.replicate n x := by
  induction n with
  | zero => rfl
  | succ m ih =>
    rw [List.replicate_succ]
    show insertSorted x (sortAsc (List.replicate m x)) = _
    rw [ih, insertSorted_replicate, List.replicate_succ]

theorem giniCumsum_replicate (n : ℕ) (i : ℕ) (x : ℚ) :
    giniCumsum i (List.replicate n x) =
      x * ((n : ℚ) * i + (n : ℚ) * ((n : ℚ) + 1) / 2) := by
  induction n generalizing i with
  | zero => simp [giniCumsum]
  | succ m ih =>
    rw [List.replicate_succ]
    show ((i : ℚ) + 1) * x + giniCumsum (i + 1) (List.replicate m x) = _
    rw [ih]
    push_cast
    ring


/-- Gini of n ≥ 2 equal positive wealths is exactly 0. -/
theorem gini_equal_positive (n : ℕ) (x : ℚ) (hn : 2 ≤ n) (hx : 0 < x) :
    calculate_gini_coefficient (List.replicate n x) = some 0 := by
  have hnq : (0 : ℚ) < (n : ℚ) := by
    have : 0 < n := by omega
    exact_mod_cast this
  simp only [calculate_gini_coefficient, sortAsc_replicate, List.length_replicate,
             giniCumsum_replicate, List.sum_replicate, nsmul_eq_mul]
  rw [if_neg (by omega), if_neg (by positivity)]
  congr 1
  field_simp
  ring

/-- C3 amended: the Gini computation returns 0 for every population of
n ≥ 2 actors holding the same positive wealth and for every population of
fewer than 2 actors; but for n ≥ 2 actors all holding wealth 0 it divides
by zero (Python ZeroDivisionError) instead of returning 0. -/
theorem gini_amended :
    (∀ (n : ℕ) (x : ℚ), 2 ≤ n → 0 < x →
        calculate_gini_coefficient (List.replicate n x) = some 0) ∧
    (∀ raw : List ℚ, raw.length < 2 → calculate_gini_coefficient raw = some 0) ∧
    (∀ n : ℕ, 2 ≤ n → calculate_gini_coefficient (List.replicate n 0) = none) := by
  refine ⟨gini_equal_positive, ?_, ?_⟩
  · intro raw h
    rw [calculate_gini_coefficient, if_pos h]
  · intro n hn
    simp only [calculate_gini_coefficient, sortAsc_replicate, List.length_replicate,
               giniCumsum_replicate, List.sum_replicate, nsmul_eq_mul]
    rw [if_neg (by omega), if_pos (by ring)]

/-- C3 counterexample: two actors with equal wealth 0 make the computation
divide by zero (modelled as none) rather than return 0. -/
theorem gini_zero_wealth_cex :
    calculate_gini_coefficient (List.replicate 2 0) = none ∧
    (none : Option ℚ) ≠ some 0 :=
  ⟨by with_unfolding_all rfl, by simp⟩

/-- C3 witness: the amended theorem at three actors of wealth 5, a
single-actor population, and two actors of wealth 0. -/
theorem gini_amended_witness :
    calculate_gini_coefficient (List.replicate 3 5) = some 0 ∧
    calculate_gini_coefficient [7] = some 0 ∧
    calculate_gini_coefficient (List.replicate 2 0) = none :=
  ⟨gini_amended.1 3 5 (by norm_num) (by norm_num),
   gini_amended.2.1 [7] (by simp),
   gini_amended.2.2 2 (by norm_num)⟩


/-- C5 amended: the hourly batch catches an exception at the batch level,
so the loop task survives, but the batch updates exactly the longest prefix
of tenants whose updates succeed: a failing tenant prevents every tenant
after it in the iteration order from being updated in that batch run; all
tenants are updated only when no update fails. -/
theorem batch_update_semantics :
    (∀ (update : ℕ → Except String Unit) (ts : List ℕ),
        economic_update_loop update ts = ts.takeWhile (fun t => exceptOk (update t))) ∧
    (∀ (update : ℕ → Except String Unit) (ts : List ℕ),
        (∀ t ∈ ts, exceptOk (update t) = true) → economic_update_loop update ts = ts) := by
  have key : ∀ (update : ℕ → Except String Unit) (ts : List ℕ),
      economic_update_loop update ts = ts.takeWhile (fun t => exceptOk (update t)) := by
    intro update ts
    induction ts with
    | nil => rfl
    | cons t ts ih =>
      rw [economic_update_loop, List.takeWhile_cons]
      cases h : update t with
      | ok u => simp [exceptOk, h, ih]
      | error e => simp [exceptOk, h]
  refine ⟨key, ?_⟩
  intro update ts hall
  rw [key]
  exact List.takeWhile_eq_self_iff.mpr hall

/-- C5 counterexample: with tenants [1, 2] and tenant 1 failing, tenant 2's
update would succeed but is never run, so a per-tenant failure does prevent
the remaining tenants' ticks. -/
theorem batch_update_aborts_cex :
    economic_update_loop failingOnOne [1, 2] = [] ∧
    failingOnOne 2 = Except.ok () ∧
    2 ∉ economic_update_loop failingOnOne [1, 2] := by
  refine ⟨by with_unfolding_all rfl, by with_unfolding_all rfl, ?_⟩
  have h : economic_update_loop failingOnOne [1, 2] = [] := by with_unfolding_all rfl
  rw [h]
  simp

/-- C5 witness: the amended theorem on the all-succeeding batch [0, 2, 3]
and on the batch [0, 1, 2] containing the failing tenant 1. -/
theorem batch_update_semantics_witness :
    economic_update_loop failingOnOne [0, 2, 3] = [0, 2, 3] ∧
    economic_update_loop failingOnOne [0, 1, 2] =
      List.takeWhile (fun t => exceptOk (failingOnOne t)) [0, 1, 2] :=
  ⟨batch_update_semantics.2 failingOnOne [0, 2, 3] (by decide),
   batch_update_semantics.1 failingOnOne [0, 1, 2]⟩

/-- C7: for every crime type in the catalog and all inputs the success
probability equals base_success plus (skill - required) * 0.05 plus
max 0 ((gini - 0.45) * 0.5) plus unemployment * 0.3 minus police * 0.2,
clamped to [0.05, 0.95]; and the scenario with skill 10, required skill 0,
gini 0.60, unemployment 0.20 and police 0 yields exactly
min(base + 0.5 + 0.075 + 0.06, 0.95). -/
theorem crime_rate_formula :
    (∀ (name : String) (cd : CrimeData), CRIME_TYPES.lookup name = some cd →
      ∀ (user_skill inequality police_strength unemployment_rate : ℚ),
        calculate_crime_success_rate name user_skill inequality police_strength
            unemployment_rate =
          some (max 0.05 (min (cd.base_success + (user_skill - (cd.skill_required : ℚ)) * 0.05 +
            max 0 ((inequality - 0.45) * 0.5) + unemployment_rate * 0.3 -
            police_strength * 0.2) 0.95))) ∧
    calculate_crime_success_rate "pickpocket" 10 0.6 0 0.2 =
      some (min (0.4 + 0.5 + 0.075 + 0.06) 0.95) := by
  constructor
  · intro name cd h skill gini police unemp
    rw [calculate_crime_success_rate, h]
  · have h : calculate_crime_success_rate "pickpocket" 10 0.6 0 0.2 = some 0.95 := by
      with_unfolding_all rfl
    rw [h]
    norm_num

/-- C7 witness: the formula instantiated at robbery with skill 3 and all
macro inputs 0. -/
theorem crime_rate_formula_witness :
    CRIME_TYPES.lookup "robbery" = some ⟨0.25, 500, 3000, 6, 3⟩ ∧
    calculate_crime_success_rate "robbery" 3 0 0 0 =
      some (max 0.05 (min ((0.25 : ℚ) + ((3 : ℚ) - ((3 : ℕ) : ℚ)) * 0.05 +
        max 0 (((0 : ℚ) - 0.45) * 0.5) + (0 : ℚ) * 0.3 - (0 : ℚ) * 0.2) 0.95)) :=
  ⟨by with_unfolding_all rfl,
   crime_rate_formula.1 "robbery" ⟨0.25, 500, 3000, 6, 3⟩ (by with_unfolding_all rfl) 3 0 0 0⟩

/-- C9 amended: deposit, withdraw and transfer reject non-positive amounts
at the boundary with no mutation; but repay validates only insufficient
balance — a non-positive amount is accepted, leaving every loan unchanged
while still debiting the amount from cash (a negative amount increases the
balance) — and item pricing does not reject unknown item keys: it proceeds
with the default elasticity 0.5 and necessity 0.5. -/
theorem boundary_validation_amended :
    (∀ (a : ℚ) (u : UserState), a ≤ 0 → deposit a u = none) ∧
    (∀ (a : ℚ) (u : UserState), a ≤ 0 → withdraw a u = none) ∧
    (∀ (a : ℚ) (s r : UserState), a ≤ 0 → transfer a s r = none) ∧
    (∀ (a balance : ℚ) (l : Loan) (ls : List Loan), a ≤ 0 → a ≤ balance →
        repayCommand a balance (l :: ls) = some (balance - a, l :: ls)) ∧
    (∀ (item : String) (bp infl df : ℚ), BASE_ITEMS.lookup item = none →
        calculate_item_price item bp infl df =
          max ((bp * (1 + infl)) * (1 + (df - 1) * 0.5)) (bp * 0.5 * 0.5)) := by
  refine ⟨?_, ?_, ?_, ?_, ?_⟩
  · intro a u h; rw [deposit, if_pos h]
  · intro a u h; rw [withdraw, if_pos h]
  · intro a s r h; rw [transfer, if_pos h]
  · intro a balance l ls ha hab
    rw [repayCommand, if_neg (by simp), if_neg (by exact not_lt.mpr hab)]
    have hloop : repayLoans a (l :: ls) = (l :: ls, a) := by
      rw [repayLoans, if_pos ha]
    rw [hloop]
  · intro item bp infl df h
    rw [calculate_item_price, h]

/-- C9 counterexample: repaying the non-positive amount -100 with balance
1000 and an active loan of 500 is not rejected: the loan is untouched and
the cash balance is mutated from 1000 to 1100. -/
theorem repay_negative_cex :
    repayCommand (-100) 1000 [⟨500, false⟩] = some (1100, [⟨500, false⟩]) ∧
    (1100 : ℚ) ≠ 1000 :=
  ⟨by with_unfolding_all rfl, by norm_num⟩

/-- C9 witness: the amended theorem at concrete rejected amounts, the
accepted negative repayment, and the unknown item key golden_goose. -/
theorem boundary_validation_witness :
    deposit (-5) ⟨100, 0, 0⟩ = none ∧
    withdraw 0 ⟨100, 50, 0⟩ = none ∧
    transfer (-1) ⟨100, 0, 0⟩ ⟨0, 0, 0⟩ = none ∧
    repayCommand (-100) 1000 [⟨500, false⟩] = some (1000 - (-100), [⟨500, false⟩]) ∧
    calculate_item_price "golden_goose" 100 0.05 1 =
      max (((100 : ℚ) * (1 + 0.05)) * (1 + ((1 : ℚ) - 1) * 0.5)) ((100 : ℚ) * 0.5 * 0.5) :=
  ⟨boundary_validation_amended.1 (-5) ⟨100, 0, 0⟩ (by norm_num),
   boundary_validation_amended.2.1 0 ⟨100, 50, 0⟩ (by norm_num),
   boundary_validation_amended.2.2.1 (-1) ⟨100, 0, 0⟩ ⟨0, 0, 0⟩ (by norm_num),
   boundary_validation_amended.2.2.2.1 (-100) 1000 ⟨500, false⟩ [] (by norm_num) (by norm_num),
   boundary_validation_amended.2.2.2.2 "golden_goose" 100 0.05 1 (by with_unfolding_all rfl)⟩


/-- C6: the cycle update returns CYCLE_PHASES[floor(days / (28/5)) mod 5]
— expansion at 0 elapsed days and expansion again after the full 28-day
cycle — except that when the time-derived phase is expansion the shock draw
may return recession instead; whenever the time-derived phase is not
expansion the result is that phase regardless of the draw, and the write-back
never touches the cycle-start anchor. -/
theorem cycle_update_spec :
    (∀ (s : ServerCycleState) (now : ℕ) (shock : Bool),
        (runCycleUpdate s now shock).cycle_start = s.cycle_start ∧
        (runCycleUpdate s now shock).cycle_phase =
          update_economic_cycle (now - s.cycle_start) shock) ∧
    (∀ (d : ℕ) (shock : Bool),
        update_economic_cycle d shock =
          if shock = true ∧ CYCLE_PHASES.getD
              ((⌊(d : ℚ) / (CYCLE_DURATION_DAYS / 5)⌋).toNat % 5) "expansion" = "expansion"
          then "recession"
          else CYCLE_PHASES.getD
              ((⌊(d : ℚ) / (CYCLE_DURATION_DAYS / 5)⌋).toNat % 5) "expansion") ∧
    (∀ (d : ℕ) (shock : Bool),
        CYCLE_PHASES.getD (cyclePhaseIndex d) "expansion" ≠ "expansion" →
          update_economic_cycle d shock = CYCLE_PHASES.getD (cyclePhaseIndex d) "expansion") ∧
    update_economic_cycle 0 false = "expansion" ∧
    update_economic_cycle 28 false = "expansion" ∧
    update_economic_cycle 0 true = "recession" := by
  refine ⟨?_, ?_, ?_, ?_, ?_, ?_⟩
  · intro s now shock
    exact ⟨rfl, rfl⟩
  · intro d shock
    with_unfolding_all rfl
  · intro d shock h
    simp only [update_economic_cycle]
    rw [if_neg (fun hc => h hc.2)]
  · with_unfolding_all rfl
  · with_unfolding_all rfl
  · with_unfolding_all rfl

/-- C6 witness: the theorem at cycle start 10, now 16 (6 elapsed days,
phase peak), where even a shock draw leaves the phase at peak. -/
theorem cycle_update_spec_witness :
    ((runCycleUpdate ⟨10, "expansion"⟩ 16 false).cycle_start = 10 ∧
     (runCycleUpdate ⟨10, "expansion"⟩ 16 false).cycle_phase =
       update_economic_cycle (16 - 10) false) ∧
    CYCLE_PHASES.getD (cyclePhaseIndex 6) "expansion" ≠ "expansion" ∧
    update_economic_cycle 6 true = CYCLE_PHASES.getD (cyclePhaseIndex 6) "expansion" := by
  have h6 : CYCLE_PHASES.getD (cyclePhaseIndex 6) "expansion" = "peak" := by
    with_unfolding_all rfl
  refine ⟨cycle_update_spec.1 ⟨10, "expansion"⟩ 16 false, ?_, ?_⟩
  · rw [h6]; decide
  · exact cycle_update_spec.2.2.1 6 true (by rw [h6]; decide)

theorem clampBounds (lo hi t : ℚ) (h : lo ≤ hi) :
    lo ≤ max lo (min t hi) ∧ max lo (min t hi) ≤ hi :=
  ⟨le_max_left _ _, max_le h (min_le_right _ _)⟩

/-- C10: every investment return is clamped to [-0.90, 5] for
cryptocurrency, [-0.80, 3] for venture_capital and [-0.50, 1] for every
other instrument, so a revaluation multiplies the current value by (1 + r)
with r ≥ -0.90: a positive current value stays strictly positive and loses
at most 90 percent in one revaluation; investments are created with current
value equal to the principal, and every instrument's minimum amount is
positive. -/
theorem investment_return_bounds :
    (∀ (name : String) (d : InvestmentData), INVESTMENT_TYPES.lookup name = some d →
      ∀ (gdp_growth : ℚ) (days : ℕ) (shock : ℚ), ∃ r,
        calculate_investment_return name gdp_growth days shock = some r ∧
        -0.90 ≤ r ∧ r ≤ 5 ∧
        (name = "cryptocurrency" → -0.90 ≤ r ∧ r ≤ 5) ∧
        (name = "venture_capital" → -0.80 ≤ r ∧ r ≤ 3) ∧
        (name ≠ "cryptocurrency" → name ≠ "venture_capital" → -0.50 ≤ r ∧ r ≤ 1) ∧
        (∀ v : ℚ, 0 < v → v * (1/10) ≤ v * (1 + r) ∧ 0 < v * (1 + r))) ∧
    (∀ p ∈ INVESTMENT_TYPES, 0 < p.2.min_amount) ∧
    (∀ amount : ℚ, create_investment amount = ⟨amount, amount⟩) ∧
    (∀ (v : ℚ) (name : String) (d : InvestmentData), INVESTMENT_TYPES.lookup name = some d →
      ∀ (g : ℚ) (days : ℕ) (shock : ℚ), days ≠ 0 → 0 < v → ∃ w,
        update_investment_value v name g days shock = some w ∧ 0 < w ∧ v * (1/10) ≤ w) := by
  have main : ∀ (name : String) (d : InvestmentData), INVESTMENT_TYPES.lookup name = some d →
      ∀ (gdp_growth : ℚ) (days : ℕ) (shock : ℚ), ∃ r,
        calculate_investment_return name gdp_growth days shock = some r ∧
        -0.90 ≤ r ∧ r ≤ 5 ∧
        (name = "cryptocurrency" → -0.90 ≤ r ∧ r ≤ 5) ∧
        (name = "venture_capital" → -0.80 ≤ r ∧ r ≤ 3) ∧
        (name ≠ "cryptocurrency" → name ≠ "venture_capital" → -0.50 ≤ r ∧ r ≤ 1) ∧
        (∀ v : ℚ, 0 < v → v * (1/10) ≤ v * (1 + r) ∧ 0 < v * (1 + r)) := by
    intro name d h g days shock
    rw [calculate_investment_return, h]
    dsimp only
    by_cases hc : name = "cryptocurrency"
    · rw [if_pos hc]
      obtain ⟨hl, hr⟩ := clampBounds (-0.90)
        5.0 (d.annual_return * ((days : ℚ) / 365) + (g - 0.9) * 2 + shock) (by norm_num)
      refine ⟨_, rfl, hl, by linarith, fun _ => ⟨hl, by linarith⟩, ?_, ?_, ?_⟩
      · intro hv
        exact absurd (hc.symm.trans hv) (by decide)
      · intro hn _
        exact absurd hc hn
      · intro v hv
        exact ⟨mul_le_mul_of_nonneg_left (by linarith) hv.le, mul_pos hv (by linarith)⟩
    · rw [if_neg hc]
      by_cases hv : name = "venture_capital"
      · rw [if_pos hv]
        obtain ⟨hl, hr⟩ := clampBounds (-0.80)
          3.0 (d.annual_return * ((days : ℚ) / 365) + (g - 0.9) * 2 + shock) (by norm_num)
        refine ⟨_, rfl, by linarith, by linarith, fun hcc => absurd hcc hc,
          fun _ => ⟨hl, by linarith⟩, fun _ hnv => absurd hv hnv, ?_⟩
        intro v hvpos
        exact ⟨mul_le_mul_of_nonneg_left (by linarith) hvpos.le, mul_pos hvpos (by linarith)⟩
      · rw [if_neg hv]
        obtain ⟨hl, hr⟩ := clampBounds (-0.50)
          1.0 (d.annual_return * ((days : ℚ) / 365) + (g - 0.9) * 2 + shock) (by norm_num)
        refine ⟨_, rfl, by linarith, by linarith, fun hcc => absurd hcc hc,
          fun hvc => absurd hvc hv, fun _ _ => ⟨hl, by linarith⟩, ?_⟩
        intro v hvpos
        exact ⟨mul_le_mul_of_nonneg_left (by linarith) hvpos.le, mul_pos hvpos (by linarith)⟩
  refine ⟨main, ?_, fun amount => rfl, ?_⟩
  · intro p hp
    fin_cases hp <;> norm_num
  · intro v name d h g days shock hd hv
    obtain ⟨r, hr, h09, _⟩ := main name d h g days shock
    rw [update_investment_value, if_neg hd, hr]
    refine ⟨v * (1 + r), rfl, mul_pos hv (by linarith), mul_le_mul_of_nonneg_left (by linarith) hv.le⟩

/-- C10 witness: the theorem at stocks held 365 days with zero shock, and
a bonds revaluation from value 100. -/
theorem investment_return_bounds_witness :
    (∃ r, calculate_investment_return "stocks" 1.15 365 0 = some r ∧ -0.90 ≤ r) ∧
    (∃ w, update_investment_value 100 "bonds" 1 365 0 = some w ∧ 0 < w) := by
  constructor
  · obtain ⟨r, hr, h09, _⟩ := investment_return_bounds.1 "stocks" ⟨500, 0.08, 0.20, 0.9⟩
      (by with_unfolding_all rfl) 1.15 365 0
    exact ⟨r, hr, h09⟩
  · obtain ⟨w, hw, hpos, _⟩ := investment_return_bounds.2.2.2 100 "bonds" ⟨1000, 0.04, 0.05, 0.8⟩
      (by with_unfolding_all rfl) 1 365 0 (by norm_num) (by norm_num)
    exact ⟨w, hw, hpos⟩


theorem tax_rate_bounds (c : EconomicClassT) :
    0 ≤ CLASS_TAX_RATES c ∧ CLASS_TAX_RATES c ≤ 1 := by
  cases c <;> constructor <;> norm_num [CLASS_TAX_RATES]

/-- C4 amended: after every balance-mutating operation both wealth
components of every actor remain non-negative, and deposit, withdraw,
transfer and repay reject an overdraw before any mutation; but the crime
fine and the loan-default seizure are clamped to the available balance
rather than rejected: when the remaining debt exceeds the total assets the
default still proceeds, seizing everything and leaving a zero balance. -/
theorem balances_nonneg_amended :
    (∀ (a : ℚ) (u u' : UserState), 0 ≤ u.balance → 0 ≤ u.bank →
        deposit a u = some u' → 0 ≤ u'.balance ∧ 0 ≤ u'.bank) ∧
    (∀ (a : ℚ) (u u' : UserState), 0 ≤ u.balance → 0 ≤ u.bank →
        withdraw a u = some u' → 0 ≤ u'.balance ∧ 0 ≤ u'.bank) ∧
    (∀ (a : ℚ) (s r s' r' : UserState), 0 ≤ s.balance → 0 ≤ s.bank →
        0 ≤ r.balance → 0 ≤ r.bank → transfer a s r = some (s', r') →
        0 ≤ s'.balance ∧ 0 ≤ s'.bank ∧ 0 ≤ r'.balance ∧ 0 ≤ r'.bank) ∧
    (∀ (stolen : ℚ) (u : UserState), 0 ≤ u.balance → 0 ≤ u.bank → 0 ≤ stolen →
        0 ≤ (crime_success stolen u).balance ∧ 0 ≤ (crime_success stolen u).bank) ∧
    (∀ (fine_raw : ℚ) (u : UserState), 0 ≤ u.balance → 0 ≤ u.bank →
        0 ≤ (crime_fail fine_raw u).balance ∧ 0 ≤ (crime_fail fine_raw u).bank) ∧
    (∀ (salary productivity tax_modifier : ℚ) (c : EconomicClassT) (u : UserState),
        0 ≤ u.balance → 0 ≤ u.bank → 0 ≤ salary → 0 ≤ productivity →
        0 ≤ tax_modifier → tax_modifier ≤ 1 →
        0 ≤ (work_op salary productivity c tax_modifier u).balance ∧
        0 ≤ (work_op salary productivity c tax_modifier u).bank) ∧
    (∀ (a balance : ℚ) (loans : List Loan) (b' : ℚ) (ls' : List Loan),
        0 ≤ balance → repayCommand a balance loans = some (b', ls') → 0 ≤ b') ∧
    (∀ (u : UserState) (l : Loan), 0 ≤ u.balance → 0 ≤ u.bank →
        0 ≤ (handle_loan_default u l).1.balance ∧ 0 ≤ (handle_loan_default u l).1.bank) ∧
    (∀ (u : UserState) (l : Loan), u.balance + u.bank ≤ l.remaining →
        (handle_loan_default u l).1.balance = 0 ∧
        (handle_loan_default u l).2.remaining = l.remaining - (u.balance + u.bank)) := by
  refine ⟨?_, ?_, ?_, ?_, ?_, ?_, ?_, ?_, ?_⟩
  · intro a u u' hb hk h
    rw [deposit] at h
    split_ifs at h with h1 h2
    push_neg at h1 h2
    obtain rfl := (Option.some.inj h).symm
    exact ⟨by dsimp; linarith, by dsimp; linarith⟩
  · intro a u u' hb hk h
    rw [withdraw] at h
    split_ifs at h with h1 h2
    push_neg at h1 h2
    obtain rfl := (Option.some.inj h).symm
    exact ⟨by dsimp; linarith, by dsimp; linarith⟩
  · intro a s r s' r' hsb hsk hrb hrk h
    rw [transfer] at h
    split_ifs at h with h1 h2
    push_neg at h1 h2
    obtain ⟨h3, h4⟩ := Prod.mk.injEq .. ▸ Option.some.inj h
    subst h3; subst h4
    refine ⟨by dsimp; linarith, by dsimp; linarith, by dsimp; nlinarith, by dsimp; linarith⟩
  · intro stolen u hb hk hs
    exact ⟨by dsimp [crime_success]; linarith, by dsimp [crime_success]; linarith⟩
  · intro fine_raw u hb hk
    refine ⟨?_, by dsimp [crime_fail]; linarith⟩
    dsimp [crime_fail]
    have : min fine_raw u.balance ≤ u.balance := min_le_right _ _
    linarith
  · intro salary productivity tax_modifier c u hb hk hs hp hm0 hm1
    obtain ⟨hr0, hr1⟩ := tax_rate_bounds c
    refine ⟨?_, by dsimp [work_op]; linarith⟩
    dsimp [work_op, calculate_tax]
    have he : 0 ≤ salary * productivity := mul_nonneg hs hp
    have hrm : CLASS_TAX_RATES c * tax_modifier ≤ 1 :=
      mul_le_one₀ hr1 hm0 hm1
    have hrm0 : 0 ≤ CLASS_TAX_RATES c * tax_modifier := mul_nonneg hr0 hm0
    nlinarith [mul_nonneg he (sub_nonneg.mpr hrm)]
  · intro a balance loans b' ls' hb h
    rw [repayCommand] at h
    split_ifs at h with h1 h2
    push_neg at h2
    obtain ⟨h3, _⟩ := Prod.mk.injEq .. ▸ Option.some.inj h
    subst h3
    linarith
  · intro u l hb hk
    refine ⟨?_, by dsimp [handle_loan_default]; norm_num⟩
    dsimp [handle_loan_default]
    have : min (u.balance + u.bank) l.remaining ≤ u.balance + u.bank := min_le_left _ _
    linarith
  · intro u l h
    constructor
    · dsimp [handle_loan_default]
      rw [min_eq_left h, sub_self]
    · dsimp [handle_loan_default]
      rw [min_eq_left h, max_eq_right (sub_nonneg.mpr h)]


/-- C4 counterexample: a defaulted loan of 500 against assets of only 100
is not rejected: the handler mutates the user (seizing all 100, leaving
balance 0) with the debit clamped to the available balance. -/
theorem loan_default_clamps_cex :
    (100 : ℚ) + 0 < 500 ∧
    handle_loan_default ⟨100, 0, 0⟩ ⟨500, false⟩ = (⟨0, 0, -50⟩, ⟨400, true⟩) ∧
    (⟨0, 0, -50⟩ : UserState) ≠ ⟨100, 0, 0⟩ := by
  refine ⟨by norm_num, by with_unfolding_all rfl, ?_⟩
  intro h
  have := congrArg UserState.balance h
  dsimp at this
  norm_num at this

/-- C4 witness: the amended theorem applied to concrete deposits,
withdrawals, transfers, crime outcomes, work shifts, repayments and a loan
default. -/
theorem balances_nonneg_witness :
    (0 ≤ ((⟨50, 50, 0⟩ : UserState)).balance ∧ 0 ≤ ((⟨50, 50, 0⟩ : UserState)).bank) ∧
    (0 ≤ ((⟨40, 70, 0⟩ : UserState)).balance ∧ 0 ≤ ((⟨40, 70, 0⟩ : UserState)).bank) ∧
    (0 ≤ ((⟨100, 0, 0⟩ : UserState)).balance ∧ 0 ≤ ((⟨100, 0, 0⟩ : UserState)).bank ∧
      0 ≤ ((⟨99.5, 0, 0⟩ : UserState)).balance ∧ 0 ≤ ((⟨99.5, 0, 0⟩ : UserState)).bank) ∧
    (0 ≤ (crime_success 10 ⟨0, 0, 0⟩).balance ∧ 0 ≤ (crime_success 10 ⟨0, 0, 0⟩).bank) ∧
    (0 ≤ (crime_fail 500 ⟨100, 0, 0⟩).balance ∧ 0 ≤ (crime_fail 500 ⟨100, 0, 0⟩).bank) ∧
    (0 ≤ (work_op 1000 1 EconomicClassT.lower 1 ⟨0, 0, 0⟩).balance ∧
      0 ≤ (work_op 1000 1 EconomicClassT.lower 1 ⟨0, 0, 0⟩).bank) ∧
    (0 : ℚ) ≤ 900 ∧
    (0 ≤ (handle_loan_default ⟨100, 0, 0⟩ ⟨500, false⟩).1.balance ∧
      0 ≤ (handle_loan_default ⟨100, 0, 0⟩ ⟨500, false⟩).1.bank) ∧
    ((handle_loan_default ⟨100, 0, 0⟩ ⟨500, false⟩).1.balance = 0 ∧
      (handle_loan_default ⟨100, 0, 0⟩ ⟨500, false⟩).2.remaining =
        (500 : ℚ) - ((100 : ℚ) + 0)) :=
  ⟨balances_nonneg_amended.1 50 ⟨100, 0, 0⟩ ⟨50, 50, 0⟩ (by norm_num) (by norm_num)
     (by with_unfolding_all rfl),
   balances_nonneg_amended.2.1 30 ⟨10, 100, 0⟩ ⟨40, 70, 0⟩ (by norm_num) (by norm_num)
     (by with_unfolding_all rfl),
   balances_nonneg_amended.2.2.1 100 ⟨200, 0, 0⟩ ⟨0, 0, 0⟩ ⟨100, 0, 0⟩ ⟨99.5, 0, 0⟩
     (by norm_num) (by norm_num) (by norm_num) (by norm_num) (by with_unfolding_all rfl),
   balances_nonneg_amended.2.2.2.1 10 ⟨0, 0, 0⟩ (by norm_num) (by norm_num) (by norm_num),
   balances_nonneg_amended.2.2.2.2.1 500 ⟨100, 0, 0⟩ (by norm_num) (by norm_num),
   balances_nonneg_amended.2.2.2.2.2.1 1000 1 1 EconomicClassT.lower ⟨0, 0, 0⟩
     (by norm_num) (by norm_num) (by norm_num) (by norm_num) (by norm_num) (by norm_num),
   balances_nonneg_amended.2.2.2.2.2.2.1 100 1000 [⟨500, false⟩] 900 [⟨400, false⟩]
     (by norm_num) (by with_unfolding_all rfl),
   balances_nonneg_amended.2.2.2.2.2.2.2.1 ⟨100, 0, 0⟩ ⟨500, false⟩ (by norm_num) (by norm_num),
   balances_nonneg_amended.2.2.2.2.2.2.2.2 ⟨100, 0, 0⟩ ⟨500, false⟩ (by norm_num)⟩


theorem repayLoans_nonpos (a : ℚ) (ls : List Loan) (ha : a ≤ 0) :
    repayLoans a ls = (ls, a) := by
  cases ls with
  | nil => rfl
  | cons l t => rw [repayLoans, if_pos ha]

theorem repayLoans_pointwise (a : ℚ) (ls : List Loan)
    (h : ∀ l ∈ ls, 0 ≤ l.remaining) :
    List.Forall₂ (fun l' l => l'.remaining ≤ l.remaining ∧ 0 ≤ l'.remaining ∧
      l'.defaulted = l.defaulted) (repayLoans a ls).1 ls := by
  induction ls generalizing a with
  | nil => exact List.Forall₂.nil
  | cons l t ih =>
    rw [repayLoans]
    by_cases ha : a ≤ 0
    · rw [if_pos ha]
      exact List.forall₂_same.mpr fun x hx => ⟨le_refl _, h x hx, rfl⟩
    · rw [if_neg ha]
      push_neg at ha
      have hrem : 0 ≤ l.remaining := h l (List.mem_cons_self l _)
      have hpay0 : 0 ≤ min a l.remaining := le_min ha.le hrem
      have hpayr : min a l.remaining ≤ l.remaining := min_le_right _ _
      exact List.Forall₂.cons
        ⟨by dsimp; linarith, by dsimp; linarith, rfl⟩
        (ih _ fun x hx => h x (List.mem_cons_of_mem _ hx))

theorem repayLoans_total (ls : List Loan) (h : ∀ l ∈ ls, 0 ≤ l.remaining) :
    ∀ l' ∈ (repayLoans ((ls.map Loan.remaining).sum) ls).1, l'.remaining = 0 := by
  induction ls with
  | nil => intro l' hl'; simp [repayLoans] at hl'
  | cons l t ih =>
    have hrem : 0 ≤ l.remaining := h l (List.mem_cons_self l _)
    have htail : ∀ x ∈ t, 0 ≤ x.remaining := fun x hx => h x (List.mem_cons_of_mem _ hx)
    have hmapnn : ∀ x ∈ List.map Loan.remaining t, 0 ≤ x := by
      intro x hx
      obtain ⟨y, hy, rfl⟩ := List.mem_map.mp hx
      exact htail y hy
    have hsum : 0 ≤ (t.map Loan.remaining).sum := List.sum_nonneg hmapnn
    rw [List.map_cons, List.sum_cons, repayLoans]
    by_cases htot : l.remaining + (t.map Loan.remaining).sum ≤ 0
    · rw [if_pos htot]
      have hr0 : l.remaining = 0 := le_antisymm (by linarith) hrem
      have hs0 : (t.map Loan.remaining).sum = 0 := le_antisymm (by linarith) hsum
      intro l' hl'
      rcases List.mem_cons.mp hl' with h1 | h2
      · rw [h1, hr0]
      · have hmem : l'.remaining ∈ t.map Loan.remaining := List.mem_map_of_mem _ h2
        have hle : l'.remaining ≤ (t.map Loan.remaining).sum :=
          List.single_le_sum hmapnn _ hmem
        have := htail l' h2
        linarith [hs0 ▸ hle]
    · rw [if_neg htot]
      have hpay : min (l.remaining + (t.map Loan.remaining).sum) l.remaining = l.remaining :=
        min_eq_right (by linarith)
      intro l' hl'
      rcases List.mem_cons.mp hl' with h1 | h2
      · rw [h1]
        dsimp
        rw [hpay, sub_self]
      · have harg : l.remaining + (t.map Loan.remaining).sum - min
            (l.remaining + (t.map Loan.remaining).sum) l.remaining =
            (t.map Loan.remaining).sum := by rw [hpay]; ring
        refine ih htail l' ?_
        rw [harg] at h2
        exact h2

/-- C8: under repayment each loan's remaining balance never increases,
stays non-negative and keeps its defaulted flag; repaying a non-positive
amount (in particular 0) changes nothing no matter how often it is
repeated; repaying exactly the total remaining zeroes every loan without
going negative; and the default handler only decreases the remaining
balance, floors it at 0 and sets the defaulted flag to true. -/
theorem loan_invariants :
    (∀ (a : ℚ) (ls : List Loan), (∀ l ∈ ls, 0 ≤ l.remaining) →
        List.Forall₂ (fun l' l => l'.remaining ≤ l.remaining ∧ 0 ≤ l'.remaining ∧
          l'.defaulted = l.defaulted) (repayLoans a ls).1 ls) ∧
    (∀ (a : ℚ) (ls : List Loan), a ≤ 0 → repayLoans a ls = (ls, a)) ∧
    (∀ (ls : List Loan), (∀ l ∈ ls, 0 ≤ l.remaining) →
        ∀ l' ∈ (repayLoans ((ls.map Loan.remaining).sum) ls).1, l'.remaining = 0) ∧
    (∀ (u : UserState) (l : Loan), 0 ≤ u.balance → 0 ≤ u.bank → 0 ≤ l.remaining →
        (handle_loan_default u l).2.remaining ≤ l.remaining ∧
        0 ≤ (handle_loan_default u l).2.remaining ∧
        (handle_loan_default u l).2.defaulted = true) := by
  refine ⟨repayLoans_pointwise, repayLoans_nonpos, repayLoans_total, ?_⟩
  intro u l hb hk hr
  have hmin : 0 ≤ min (u.balance + u.bank) l.remaining := le_min (by linarith) hr
  refine ⟨?_, ?_, rfl⟩
  · dsimp [handle_loan_default]
    have : l.remaining - min (u.balance + u.bank) l.remaining ≤ l.remaining := by linarith
    exact max_le hr this
  · dsimp [handle_loan_default]
    exact le_max_left _ _

/-- C8 witness: the theorem at a single loan of 500 with repayments of
100, 0 and the full amount, and a default against assets of 100. -/
theorem loan_invariants_witness :
    List.Forall₂ (fun l' l : Loan => l'.remaining ≤ l.remaining ∧ 0 ≤ l'.remaining ∧
      l'.defaulted = l.defaulted) (repayLoans 100 [⟨500, false⟩]).1 [⟨500, false⟩] ∧
    repayLoans 0 [⟨500, false⟩] = ([⟨500, false⟩], 0) ∧
    (∀ l' ∈ (repayLoans (([⟨500, false⟩] : List Loan).map Loan.remaining).sum
        [⟨500, false⟩]).1, l'.remaining = 0) ∧
    ((handle_loan_default ⟨100, 0, 0⟩ ⟨500, false⟩).2.remaining ≤ 500 ∧
      0 ≤ (handle_loan_default ⟨100, 0, 0⟩ ⟨500, false⟩).2.remaining ∧
      (handle_loan_default ⟨100, 0, 0⟩ ⟨500, false⟩).2.defaulted = true) :=
  ⟨loan_invariants.1 100 [⟨500, false⟩]
     (by intro x hx; rw [List.mem_singleton] at hx; subst hx; norm_num),
   loan_invariants.2.1 0 [⟨500, false⟩] (by norm_num),
   loan_invariants.2.2.1 [⟨500, false⟩]
     (by intro x hx; rw [List.mem_singleton] at hx; subst hx; norm_num),
   loan_invariants.2.2.2 ⟨100, 0, 0⟩ ⟨500, false⟩ (by norm_num) (by norm_num) (by norm_num)⟩

end Economics
